import Mathlib

/-!
Shallow embedding of the flight-simulator dynamics core:
the Realistic model (`src/aircraft/FlightPhysics.ts`, ground/air state
machine), the Arcade and Hybrid models, the unified physics adapter, the
chase-camera rig and the scalar damping helper.  Floating-point numbers
are modelled as real numbers; JS `Math.hypot`, `Math.min`/`Math.max`,
`Math.sin`/`cos`/`exp` become their exact mathematical counterparts.
-/

noncomputable section

namespace Engine

/-- 3-component vector of the engine math module (Vec3 of engine/math). -/
structure Vec3 where
  x : ℝ
  y : ℝ
  z : ℝ

/-- Modelled from the spec: engine/math.ts is not among the staged sources;
the spec lists a vector constructor among the stateless math primitives. -/
def v3 (x y z : ℝ) : Vec3 := ⟨x, y, z⟩

/-- Modelled from the spec: componentwise vector addition (math primitive add). -/
def add (a b : Vec3) : Vec3 := ⟨a.x + b.x, a.y + b.y, a.z + b.z⟩

/-- Modelled from the spec: scaling of a vector by a scalar (math primitive scale);
the source calls it with the vector first, `mul(v, s)`. -/
def mul (a : Vec3) (s : ℝ) : Vec3 := ⟨a.x * s, a.y * s, a.z * s⟩

/-- JS `Math.hypot(x, y, z)`: the Euclidean norm of three components. -/
def hypot3 (x y z : ℝ) : ℝ := Real.sqrt (x ^ 2 + y ^ 2 + z ^ 2)

/-- JS `Math.hypot(x, z)`: the Euclidean norm of two components. -/
def hypot2 (x z : ℝ) : ℝ := Real.sqrt (x ^ 2 + z ^ 2)

/-- Modelled from the spec: util/clamp.ts is not among the staged sources; the
spec describes every use as clamping a value into a closed interval
(throttle to [0,1], pitch to a fixed range). -/
def clamp (x lo hi : ℝ) : ℝ := min (max x lo) hi

/-- Modelled from the spec: engine/math.ts (qFromEuler composed with forward)
is not among the staged sources.  The spec says orientation is composed
roll, then pitch, then yaw, and the comments in the staged sources fix the
convention: yaw = 0 faces +Z, yaw = 90 degrees faces +X, pitch up gives a
positive Y component; roll does not change the forward direction. -/
def fwdFromEuler (pitch yaw _roll : ℝ) : Vec3 :=
  ⟨Real.sin yaw * Real.cos pitch, Real.sin pitch, Real.cos yaw * Real.cos pitch⟩

/-- Exponential damping (engine/smoothing.ts, damp). -/
def damp (current target lambda dt : ℝ) : ℝ :=
  current + (target - current) * (1 - Real.exp (-lambda * dt))

end Engine

namespace FlightPhysics

open Engine

/-- FlightState of the Realistic model (aircraft/FlightPhysics.ts). -/
structure FlightState where
  velocity : Vec3
  pitch : ℝ
  yaw : ℝ
  roll : ℝ
  throttle : ℝ
  isGrounded : Bool

/-- FlightConfig of the Realistic model. -/
structure FlightConfig where
  mass : ℝ
  maxThrust : ℝ
  dragCoef : ℝ
  liftCoef : ℝ
  gravity : ℝ
  maxPitchRate : ℝ
  maxRollRate : ℝ
  maxYawRate : ℝ
  airBrakeDrag : ℝ
  boostThrust : ℝ
  groundLevel : ℝ
  takeoffSpeed : ℝ
  groundFriction : ℝ

/-- ControlInput shared by the models. -/
structure ControlInput where
  pitch : ℝ
  roll : ℝ
  yaw : ℝ
  throttleDelta : ℝ
  brake : Bool
  boost : Bool

/-- The all-zero control input: no axis input, no throttle change, no
brake, no boost. -/
def zeroInput : ControlInput := ⟨0, 0, 0, 0, false, false⟩

/-- The TypeScript constructor takes a `Partial` config: every field may be
supplied or left to its default. -/
structure PartialFlightConfig where
  mass : Option ℝ := none
  maxThrust : Option ℝ := none
  dragCoef : Option ℝ := none
  liftCoef : Option ℝ := none
  gravity : Option ℝ := none
  maxPitchRate : Option ℝ := none
  maxRollRate : Option ℝ := none
  maxYawRate : Option ℝ := none
  airBrakeDrag : Option ℝ := none
  boostThrust : Option ℝ := none
  groundLevel : Option ℝ := none
  takeoffSpeed : Option ℝ := none
  groundFriction : Option ℝ := none

/-- The constructor of FlightPhysics: spread the defaults, then the supplied
fields, then unconditionally recompute liftCoef so that
liftCoef * takeoffSpeed^2 = mass * gravity. -/
def mkFlightConfig (p : PartialFlightConfig) : FlightConfig :=
  let base : FlightConfig :=
    { mass := p.mass.getD 800
      maxThrust := p.maxThrust.getD 6000
      dragCoef := p.dragCoef.getD 0.003
      liftCoef := p.liftCoef.getD 12.5
      gravity := p.gravity.getD 9.81
      maxPitchRate := p.maxPitchRate.getD 1.5
      maxRollRate := p.maxRollRate.getD 2.0
      maxYawRate := p.maxYawRate.getD 1.0
      airBrakeDrag := p.airBrakeDrag.getD 0.02
      boostThrust := p.boostThrust.getD 3000
      groundLevel := p.groundLevel.getD 180
      takeoffSpeed := p.takeoffSpeed.getD 25
      groundFriction := p.groundFriction.getD 0.015 }
  { base with
      liftCoef := base.mass * base.gravity / (base.takeoffSpeed * base.takeoffSpeed) }

/-- The initial state set by the constructor: at rest, level, idle, grounded. -/
def initialState : FlightState :=
  { velocity := v3 0 0 0, pitch := 0, yaw := 0, roll := 0,
    throttle := 0, isGrounded := true }

/-- The yaw after a GROUND/TAXI tick: yaw input scaled by the low-speed
steering factor. -/
def groundYaw (c : FlightConfig) (input : ControlInput) (dt groundSpeed : ℝ)
    (s : FlightState) : ℝ :=
  s.yaw + input.yaw * c.maxYawRate * max 0.5 (1.5 - groundSpeed / 20) * dt

/-- The planar velocity after the GROUND/TAXI force integration (thrust
along the yaw forward direction, rolling friction, braking), before the
taxi speed clamp and the full-stop snap.  The vertical component is 0. -/
def groundVel1 (c : FlightConfig) (input : ControlInput) (dt groundSpeed : ℝ)
    (s : FlightState) : Vec3 :=
  let yaw1 := groundYaw c input dt groundSpeed s
  let thrust := c.maxThrust * s.throttle
  let accelX0 := Real.sin yaw1 * thrust / c.mass
  let accelZ0 := Real.cos yaw1 * thrust / c.mass
  let frictionDecel := c.groundFriction * c.gravity
  let accelX1 := if groundSpeed > 0.1 then
      accelX0 - s.velocity.x / groundSpeed * frictionDecel else accelX0
  let accelZ1 := if groundSpeed > 0.1 then
      accelZ0 - s.velocity.z / groundSpeed * frictionDecel else accelZ0
  let brakeDecel := c.gravity * 0.4
  let accelX2 := if input.brake = true ∧ groundSpeed > 0.5 then
      accelX1 - s.velocity.x / groundSpeed * brakeDecel else accelX1
  let accelZ2 := if input.brake = true ∧ groundSpeed > 0.5 then
      accelZ1 - s.velocity.z / groundSpeed * brakeDecel else accelZ1
  ⟨s.velocity.x + accelX2 * dt, 0, s.velocity.z + accelZ2 * dt⟩

/-- GROUND/TAXI MODE (updateGround).  Receives the state after the
transition check and the throttle integration, plus the ground speed
computed from the pre-update velocity.  The integrated planar velocity is
clamped to the taxi ceiling of 50; at a near stop with negligible throttle
and no braking it snaps exactly to zero; the vertical component stays 0.
The full-stop test reads the ground speed computed before the clamp, as
the source does. -/
def updateGround (c : FlightConfig) (input : ControlInput) (dt groundSpeed : ℝ)
    (s : FlightState) : FlightState :=
  let v := groundVel1 c input dt groundSpeed s
  let newGroundSpeed := hypot2 v.x v.z
  let vx2 := if newGroundSpeed > 50 then v.x * (50 / newGroundSpeed) else v.x
  let vz2 := if newGroundSpeed > 50 then v.z * (50 / newGroundSpeed) else v.z
  let fullStop := newGroundSpeed < 0.3 ∧ s.throttle < 0.05 ∧ input.brake = false
  { s with yaw := groundYaw c input dt groundSpeed s, pitch := 0, roll := 0,
           velocity := ⟨if fullStop then 0 else vx2, 0, if fullStop then 0 else vz2⟩ }

/-- The pitch-dependent lift multiplier of FLIGHT MODE: up to 1.2 nose-up,
down to 0.3 nose-down, linear in the pitch angle in degrees. -/
def liftMultiplier (pitch : ℝ) : ℝ :=
  let pitchDegrees := pitch * 180 / Real.pi
  let m := if pitchDegrees > 0 then 1 + pitchDegrees / 45 * 0.2
           else 1 + pitchDegrees / 45 * 0.7
  clamp m 0.3 1.2

/-- The lift force computed in FLIGHT MODE: liftCoef * speed^2, capped at
1.5 times the weight, then scaled by the pitch multiplier. -/
def liftForce (c : FlightConfig) (speed pitch : ℝ) : ℝ :=
  min (c.liftCoef * speed * speed) (c.mass * c.gravity * 1.5) * liftMultiplier pitch

/-- The pitch after a FLIGHT MODE tick: the integrated pitch input clamped
to 45 degrees either way. -/
def flightPitch (c : FlightConfig) (input : ControlInput) (dt : ℝ)
    (s : FlightState) : ℝ :=
  clamp (s.pitch + input.pitch * c.maxPitchRate * dt) (-(Real.pi / 4)) (Real.pi / 4)

/-- The roll after a FLIGHT MODE tick: the integrated roll input, decayed
by 2 percent when the roll input is small. -/
def flightRoll (c : FlightConfig) (input : ControlInput) (dt : ℝ)
    (s : FlightState) : ℝ :=
  let roll1 := s.roll + input.roll * c.maxRollRate * dt
  if |input.roll| < 0.1 then roll1 * 0.98 else roll1

/-- The yaw after a FLIGHT MODE tick. -/
def flightYaw (c : FlightConfig) (input : ControlInput) (dt : ℝ)
    (s : FlightState) : ℝ :=
  s.yaw + input.yaw * c.maxYawRate * dt

/-- The total force accumulated in FLIGHT MODE: thrust along the forward
vector, quadratic drag (doubled coefficient, tripled brake term) opposing
the velocity, capped pitch-scaled lift, gravity, and the pitch-based climb
assist. -/
def flightForce (c : FlightConfig) (input : ControlInput) (dt speed : ℝ)
    (s : FlightState) : Vec3 :=
  let pitch2 := flightPitch c input dt s
  let fwd := fwdFromEuler pitch2 (flightYaw c input dt s) (flightRoll c input dt s)
  let thrustMag := c.maxThrust * s.throttle + (if input.boost = true then c.boostThrust else 0)
  let dragMag := c.dragCoef * 2 * speed * speed
  let brakeDrag := if input.brake = true then c.airBrakeDrag * speed * speed * 3 else 0
  let totalDrag := dragMag + brakeDrag
  let forceX := fwd.x * thrustMag -
    (if speed > 0.1 then s.velocity.x / speed * totalDrag * c.mass else 0)
  let forceY0 := fwd.y * thrustMag -
    (if speed > 0.1 then s.velocity.y / speed * totalDrag * c.mass else 0)
  let forceZ := fwd.z * thrustMag -
    (if speed > 0.1 then s.velocity.z / speed * totalDrag * c.mass else 0)
  let climbRate := -Real.sin pitch2 * speed * 0.5
  ⟨forceX,
   forceY0 + liftForce c speed pitch2 - c.mass * c.gravity + climbRate * c.mass * 0.3,
   forceZ⟩

/-- The velocity after the FLIGHT MODE force integration, before the speed
clamp. -/
def flightVel1 (c : FlightConfig) (input : ControlInput) (dt speed : ℝ)
    (s : FlightState) : Vec3 :=
  let f := flightForce c input dt speed s
  ⟨s.velocity.x + f.x / c.mass * dt,
   s.velocity.y + f.y / c.mass * dt,
   s.velocity.z + f.z / c.mass * dt⟩

/-- The velocity after the FLIGHT MODE speed clamp: scaled back onto the
ceiling of 80 when the integrated speed exceeds it. -/
def flightVel2 (c : FlightConfig) (input : ControlInput) (dt speed : ℝ)
    (s : FlightState) : Vec3 :=
  let v := flightVel1 c input dt speed s
  let newSpeed := hypot3 v.x v.y v.z
  if newSpeed > 80 then ⟨v.x * (80 / newSpeed), v.y * (80 / newSpeed), v.z * (80 / newSpeed)⟩
  else v

/-- FLIGHT MODE (updateFlight).  Receives the state after the transition
check and the throttle integration, the speed computed from the pre-update
velocity, and the externally supplied height.  The ground-collision check
at the end compares the supplied height against the ground level, zeroes a
downward vertical velocity there, and lands when the integrated speed
(computed before the clamp) is below 0.8 of the takeoff speed. -/
def updateFlight (c : FlightConfig) (input : ControlInput) (dt speed entityY : ℝ)
    (s : FlightState) : FlightState :=
  let newSpeed := hypot3 (flightVel1 c input dt speed s).x
    (flightVel1 c input dt speed s).y (flightVel1 c input dt speed s).z
  let v2 := flightVel2 c input dt speed s
  let collided := entityY ≤ c.groundLevel ∧ v2.y < 0
  { s with pitch := flightPitch c input dt s, roll := flightRoll c input dt s,
           yaw := flightYaw c input dt s,
           velocity := ⟨v2.x, if collided then 0 else v2.y, v2.z⟩,
           isGrounded := if collided ∧ newSpeed < c.takeoffSpeed * 0.8 then true
                         else s.isGrounded }

/-- The ground/air state transition run at the start of every tick, on the
pre-update speed and throttle: GROUNDED to AIRBORNE when the speed reaches
the takeoff speed with throttle at least 0.5; AIRBORNE to GROUNDED when
the supplied height is within 0.5 of the ground level and the speed is
below 0.8 of the takeoff speed, zeroing the vertical velocity. -/
def transition (c : FlightConfig) (s : FlightState) (speed entityY : ℝ) :
    FlightState :=
  if s.isGrounded = true ∧ speed ≥ c.takeoffSpeed ∧ s.throttle ≥ 0.5 then
    { s with isGrounded := false }
  else if s.isGrounded = false ∧ entityY ≤ c.groundLevel + 0.5 ∧
      speed < c.takeoffSpeed * 0.8 then
    { s with isGrounded := true, velocity := ⟨s.velocity.x, 0, s.velocity.z⟩ }
  else s

/-- One tick of the Realistic model (update): transition check on the
pre-update speed and throttle, throttle integration, then the taxi or the
flight regime. -/
def update (c : FlightConfig) (s : FlightState) (input : ControlInput)
    (dt entityY : ℝ) : FlightState :=
  let speed := hypot3 s.velocity.x s.velocity.y s.velocity.z
  let groundSpeed := hypot2 s.velocity.x s.velocity.z
  let s1 := transition c s speed entityY
  let s2 := { s1 with throttle := clamp (s1.throttle + input.throttleDelta * dt) 0 1 }
  if s2.isGrounded = true then updateGround c input dt groundSpeed s2
  else updateFlight c input dt speed entityY s2

end FlightPhysics

namespace ArcadeFlightPhysics

open Engine

/-- ArcadeFlightState (aircraft/ArcadeFlightPhysics.ts). -/
structure ArcadeFlightState where
  position : Vec3
  velocity : Vec3
  yaw : ℝ
  pitch : ℝ
  roll : ℝ
  throttle : ℝ

/-- ArcadeFlightConfig. -/
structure ArcadeFlightConfig where
  maxSpeed : ℝ
  accel : ℝ
  decel : ℝ
  turnRateYaw : ℝ
  turnRatePitch : ℝ
  turnRateRoll : ℝ
  autoLevelStrength : ℝ
  gravity : ℝ
  boostMultiplier : ℝ
  brakeMultiplier : ℝ

/-- The defaults of the Arcade constructor. -/
def defaultArcadeConfig : ArcadeFlightConfig :=
  { maxSpeed := 100, accel := 35, decel := 25, turnRateYaw := 1.5,
    turnRatePitch := 1.2, turnRateRoll := 1.8, autoLevelStrength := 2.5,
    gravity := 2.5, boostMultiplier := 1.4, brakeMultiplier := 0.3 }

/-- Forward vector of the Arcade model (forwardFromEuler): yaw = 0 faces
+Z, pitch enters with a negated Y component. -/
def forwardFromEuler (pitch yaw : ℝ) : Vec3 :=
  v3 (Real.sin yaw * Real.cos pitch) (-Real.sin pitch) (Real.cos yaw * Real.cos pitch)

/-- One tick of the Arcade model (update): throttle integration, target
speed with boost and brake multipliers, asymmetric approach of the target
speed, direct orientation integration, auto-level under small input, pitch
clamp, velocity from the forward vector, gravity bias, position step. -/
def update (c : ArcadeFlightConfig) (s : ArcadeFlightState)
    (input : FlightPhysics.ControlInput) (dt : ℝ) : ArcadeFlightState :=
  let throttle1 := clamp (s.throttle + input.throttleDelta * dt) 0 1
  let target0 := c.maxSpeed * throttle1
  let target1 := if input.boost = true then target0 * c.boostMultiplier else target0
  let target2 := if input.brake = true then target1 * c.brakeMultiplier else target1
  let currentSpeed := hypot3 s.velocity.x s.velocity.y s.velocity.z
  let speedDiff := target2 - currentSpeed
  let accel := if speedDiff > 0 then c.accel else c.decel
  let newSpeed := currentSpeed + clamp speedDiff (-(accel * dt)) (accel * dt)
  let yaw1 := s.yaw + input.yaw * c.turnRateYaw * dt
  let pitch1 := s.pitch + input.pitch * c.turnRatePitch * dt
  let roll1 := s.roll + input.roll * c.turnRateRoll * dt
  let roll2 := if |input.roll| < 0.1 then roll1 - roll1 * c.autoLevelStrength * dt else roll1
  let pitch2 := if |input.pitch| < 0.1 then
      pitch1 - pitch1 * c.autoLevelStrength * 0.5 * dt else pitch1
  let pitch3 := clamp pitch2 (-(Real.pi / 4)) (Real.pi / 4)
  let fwd := forwardFromEuler pitch3 yaw1
  let vel1 := mul fwd newSpeed
  let vel2 : Vec3 := ⟨vel1.x, vel1.y - c.gravity * dt * (1 - throttle1 * 0.8), vel1.z⟩
  { position := add s.position (mul vel2 dt), velocity := vel2,
    yaw := yaw1, pitch := pitch3, roll := roll2, throttle := throttle1 }

end ArcadeFlightPhysics

namespace HybridFlightPhysics

open Engine

/-- HybridFlightState (aircraft/HybridFlightPhysics.ts). -/
structure HybridFlightState where
  position : Vec3
  velocity : Vec3
  yaw : ℝ
  pitch : ℝ
  roll : ℝ
  throttle : ℝ

/-- HybridFlightConfig. -/
structure HybridFlightConfig where
  mass : ℝ
  baseThrust : ℝ
  maxThrust : ℝ
  dragCoef : ℝ
  liftCoef : ℝ
  gravity : ℝ
  maxPitchRate : ℝ
  maxRollRate : ℝ
  maxYawRate : ℝ
  stallSpeed : ℝ
  stallLiftMultiplier : ℝ

/-- The defaults of the Hybrid constructor. -/
def defaultHybridConfig : HybridFlightConfig :=
  { mass := 900, baseThrust := 2000, maxThrust := 9000, dragCoef := 0.04,
    liftCoef := 1.1, gravity := 9.81, maxPitchRate := 1.5, maxRollRate := 2.0,
    maxYawRate := 1.0, stallSpeed := 25, stallLiftMultiplier := 0.3 }

/-- Forward vector of the Hybrid model, same convention as Arcade. -/
def forwardFromEuler (pitch yaw : ℝ) : Vec3 :=
  v3 (Real.sin yaw * Real.cos pitch) (-Real.sin pitch) (Real.cos yaw * Real.cos pitch)

/-- One tick of the Hybrid model (update): direct orientation integration,
pitch clamp, throttle integration, then force accumulation (thrust, drag,
stall-attenuated lift, gravity) integrated into velocity and position. -/
def update (c : HybridFlightConfig) (s : HybridFlightState)
    (input : FlightPhysics.ControlInput) (dt : ℝ) : HybridFlightState :=
  let pitch1 := s.pitch + input.pitch * c.maxPitchRate * dt
  let roll1 := s.roll + input.roll * c.maxRollRate * dt
  let yaw1 := s.yaw + input.yaw * c.maxYawRate * dt
  let pitch2 := clamp pitch1 (-(Real.pi / 2) + 0.2) (Real.pi / 2 - 0.2)
  let throttle1 := clamp (s.throttle + input.throttleDelta * dt) 0 1
  let speed := hypot3 s.velocity.x s.velocity.y s.velocity.z
  let fwd := forwardFromEuler pitch2 yaw1
  let thrust0 := c.baseThrust + c.maxThrust * throttle1
  let thrust1 := if input.boost = true then thrust0 * 1.35 else thrust0
  let thrustForce := mul fwd thrust1
  let dragMag := c.dragCoef * speed * speed
  let drag := if speed > 0 then mul s.velocity (-dragMag / speed) else v3 0 0 0
  let liftMag0 := c.liftCoef * speed * throttle1
  let liftMag := if speed < c.stallSpeed then
      liftMag0 * (c.stallLiftMultiplier +
        (1 - c.stallLiftMultiplier) * clamp (speed / c.stallSpeed) 0 1)
    else liftMag0
  let lift := mul (v3 0 1 0) (liftMag * c.mass)
  let gravity := v3 0 (-(c.mass * c.gravity)) 0
  let totalForce := add (add (add thrustForce drag) lift) gravity
  let acc := mul totalForce (1 / c.mass)
  let vel1 := add s.velocity (mul acc dt)
  { position := add s.position (mul vel1 dt), velocity := vel1,
    yaw := yaw1, pitch := pitch2, roll := roll1, throttle := throttle1 }

end HybridFlightPhysics

namespace FlightPhysicsAdapter

open Engine

/-- The Realistic adapter (RealisticPhysicsAdapter.update of
aircraft/FlightPhysicsAdapter.ts): it wraps a FlightPhysics constructed
with no argument and forwards the optional height, substituting 0 when the
caller omits it. -/
def realisticUpdate (s : FlightPhysics.FlightState)
    (input : FlightPhysics.ControlInput) (dt : ℝ) (entityY : Option ℝ) :
    FlightPhysics.FlightState :=
  FlightPhysics.update (FlightPhysics.mkFlightConfig {}) s input dt (entityY.getD 0)

end FlightPhysicsAdapter

namespace CameraRig

open Engine

/-- The smoothing state of the chase camera (aircraft/CameraRig.ts). -/
structure Rig where
  position : Vec3
  target : Vec3

/-- The guarded direction of travel: velocity over its norm, with divisor 1
substituted when the norm is 0 (JS: Math.hypot(...) or 1). -/
def dirOf (planeVel : Vec3) : Vec3 :=
  let speed := if hypot3 planeVel.x planeVel.y planeVel.z = 0 then 1
               else hypot3 planeVel.x planeVel.y planeVel.z
  v3 (planeVel.x / speed) (planeVel.y / speed) (planeVel.z / speed)

/-- The ideal camera position: behind the aircraft along its direction of
travel at distance 12, raised by 3.5. -/
def idealPos (planePos planeVel : Vec3) : Vec3 :=
  add planePos (add (mul (dirOf planeVel) (-12)) (v3 0 3.5 0))

/-- The ideal look-at target: ahead of the aircraft along its direction of
travel at distance 4. -/
def idealTarget (planePos planeVel : Vec3) : Vec3 :=
  add planePos (mul (dirOf planeVel) 4)

/-- One tick of the camera rig (update): every axis of the position and of
the look-at target damped toward its ideal value with stiffness 6. -/
def update (rig : Rig) (planePos planeVel : Vec3) (dt : ℝ) : Rig :=
  let ip := idealPos planePos planeVel
  let it := idealTarget planePos planeVel
  { position := ⟨damp rig.position.x ip.x 6 dt, damp rig.position.y ip.y 6 dt,
                 damp rig.position.z ip.z 6 dt⟩,
    target := ⟨damp rig.target.x it.x 6 dt, damp rig.target.y it.y 6 dt,
               damp rig.target.z it.z 6 dt⟩ }

/-- Euclidean distance between two vectors. -/
def dist3 (a b : Vec3) : ℝ :=
  hypot3 (a.x - b.x) (a.y - b.y) (a.z - b.z)

end CameraRig

namespace Engine

/-- The speed of a velocity vector: its Euclidean norm. -/
def speed3 (v : Vec3) : ℝ := hypot3 v.x v.y v.z

lemma clamp_nonneg (x : ℝ) : 0 ≤ clamp x 0 1 :=
  le_min (le_max_right x 0) zero_le_one

lemma clamp_le_one (x : ℝ) : clamp x 0 1 ≤ 1 :=
  min_le_right _ _

lemma abs_clamp_le {a : ℝ} (x : ℝ) (ha : 0 ≤ a) : |clamp x (-a) a| ≤ a :=
  abs_le.mpr ⟨le_min (le_max_right x (-a)) (neg_le_self ha), min_le_right _ _⟩

lemma clamp_eq_of_mem {x lo hi : ℝ} (h1 : lo ≤ x) (h2 : x ≤ hi) :
    clamp x lo hi = x := by
  unfold clamp
  rw [max_eq_left h1, min_eq_left h2]

end Engine

namespace FlightPhysics

open Engine

lemma updateGround_throttle (c : FlightConfig) (i : ControlInput) (dt gs : ℝ)
    (s : FlightState) : (updateGround c i dt gs s).throttle = s.throttle := by
  simp only [updateGround]

lemma updateGround_isGrounded (c : FlightConfig) (i : ControlInput) (dt gs : ℝ)
    (s : FlightState) : (updateGround c i dt gs s).isGrounded = s.isGrounded := by
  simp only [updateGround]

lemma updateGround_velocity_y (c : FlightConfig) (i : ControlInput) (dt gs : ℝ)
    (s : FlightState) : (updateGround c i dt gs s).velocity.y = 0 := by
  simp only [updateGround]

lemma updateGround_pitch (c : FlightConfig) (i : ControlInput) (dt gs : ℝ)
    (s : FlightState) : (updateGround c i dt gs s).pitch = 0 := by
  simp only [updateGround]

lemma updateFlight_throttle (c : FlightConfig) (i : ControlInput) (dt sp y : ℝ)
    (s : FlightState) : (updateFlight c i dt sp y s).throttle = s.throttle := by
  simp only [updateFlight]

lemma transition_throttle (c : FlightConfig) (s : FlightState) (sp y : ℝ) :
    (transition c s sp y).throttle = s.throttle := by
  unfold transition
  split_ifs <;> rfl

lemma update_throttle (c : FlightConfig) (s : FlightState) (i : ControlInput)
    (dt y : ℝ) :
    (update c s i dt y).throttle = clamp (s.throttle + i.throttleDelta * dt) 0 1 := by
  simp only [update]
  split_ifs <;>
    simp only [updateGround_throttle, updateFlight_throttle, transition_throttle]

/-- Below takeoff throttle, a grounded state passes the transition check
unchanged. -/
lemma transition_eq_of_grounded_lowthrottle {c : FlightConfig} {s : FlightState}
    (sp y : ℝ) (hg : s.isGrounded = true) (ht : s.throttle < 0.5) :
    transition c s sp y = s := by
  unfold transition
  rw [if_neg fun h => absurd h.2.2 (not_le.mpr ht), if_neg (by simp [hg])]

/-- A slow airborne state supplied a height within half a unit of the
ground level lands in the transition check. -/
lemma transition_lands {c : FlightConfig} {s : FlightState} {sp y : ℝ}
    (hg : s.isGrounded = false) (hy : y ≤ c.groundLevel + 0.5)
    (hs : sp < c.takeoffSpeed * 0.8) :
    transition c s sp y =
      { s with isGrounded := true, velocity := ⟨s.velocity.x, 0, s.velocity.z⟩ } := by
  unfold transition
  rw [if_neg (by simp [hg]), if_pos ⟨hg, hy, hs⟩]

/-- A grounded state at takeoff speed and throttle lifts off in the
transition check. -/
lemma transition_takesOff {c : FlightConfig} {s : FlightState} {sp y : ℝ}
    (hg : s.isGrounded = true) (hsp : sp ≥ c.takeoffSpeed) (ht : s.throttle ≥ 0.5) :
    transition c s sp y = { s with isGrounded := false } := by
  unfold transition
  rw [if_pos ⟨hg, hsp, ht⟩]

lemma updateFlight_isGrounded (c : FlightConfig) (i : ControlInput)
    (dt sp y : ℝ) (s : FlightState) :
    (updateFlight c i dt sp y s).isGrounded =
      if (y ≤ c.groundLevel ∧ (flightVel2 c i dt sp s).y < 0) ∧
          hypot3 (flightVel1 c i dt sp s).x (flightVel1 c i dt sp s).y
            (flightVel1 c i dt sp s).z < c.takeoffSpeed * 0.8 then true
      else s.isGrounded := by
  simp only [updateFlight]

lemma updateFlight_isGrounded_of_above {c : FlightConfig} {y : ℝ}
    (i : ControlInput) (dt sp : ℝ) (s : FlightState) (hy : c.groundLevel < y) :
    (updateFlight c i dt sp y s).isGrounded = s.isGrounded := by
  rw [updateFlight_isGrounded, if_neg fun h => absurd h.1.1 (not_le.mpr hy)]

/-- A slow airborne state supplied a height within the landing tolerance
lands: the update reports grounded with vertical velocity exactly 0. -/
lemma update_lands (c : FlightConfig) (s : FlightState) (i : ControlInput)
    (dt y : ℝ) (hg : s.isGrounded = false) (hy : y ≤ c.groundLevel + 0.5)
    (hs : hypot3 s.velocity.x s.velocity.y s.velocity.z < c.takeoffSpeed * 0.8) :
    (update c s i dt y).isGrounded = true ∧
    (update c s i dt y).velocity.y = 0 := by
  simp [update, transition_lands hg hy hs, updateGround_isGrounded,
    updateGround_velocity_y]

end FlightPhysics

/-- Claim C2 fails as stated: the takeoff transition does fire, but the same
tick's flight integration may re-land the aircraft.  With the default
config, a grounded state moving straight down at 30 (speed 30, at least
the takeoff speed 25) with throttle exactly 0.5, given throttleDelta -10,
brake on and dt 0.3 at height 180, satisfies every premise of the claim
yet the update reports grounded. -/
theorem C2_counterexample :
    Engine.speed3 (⟨0, -30, 0⟩ : Engine.Vec3) ≥
      (FlightPhysics.mkFlightConfig {}).takeoffSpeed ∧
    ((0.5 : ℝ) ≥ 0.5) ∧ ((0 : ℝ) ≤ 0.3) ∧
    (FlightPhysics.update (FlightPhysics.mkFlightConfig {})
      ⟨⟨0, -30, 0⟩, 0, 0, 0, 0.5, true⟩
      ⟨0, 0, 0, -10, true, false⟩ 0.3 180).isGrounded = true := by
  have h30 : Engine.hypot3 0 (-30) 0 = 30 := by
    unfold Engine.hypot3
    rw [show ((0:ℝ) ^ 2 + (-30:ℝ) ^ 2 + (0:ℝ) ^ 2) = 30 ^ 2 by norm_num,
      Real.sqrt_sq (by norm_num)]
  refine ⟨by unfold Engine.speed3; simp only; rw [h30]; norm_num
      [FlightPhysics.mkFlightConfig], le_refl _, by norm_num, ?_⟩
  simp only [FlightPhysics.update]
  rw [h30]
  rw [FlightPhysics.transition_takesOff rfl
    (by norm_num [FlightPhysics.mkFlightConfig]) (by norm_num)]
  simp only [Bool.false_eq_true, if_false]
  rw [show Engine.clamp ((0.5 : ℝ) + -10 * 0.3) 0 1 = (0 : ℝ) from by
    norm_num [Engine.clamp]]
  rw [FlightPhysics.updateFlight_isGrounded]
  have hpitch : FlightPhysics.flightPitch (FlightPhysics.mkFlightConfig {})
      ⟨0, 0, 0, -10, true, false⟩ 0.3 ⟨⟨0, -30, 0⟩, 0, 0, 0, 0, false⟩ = 0 := by
    unfold FlightPhysics.flightPitch
    norm_num [FlightPhysics.mkFlightConfig]
    exact Engine.clamp_eq_of_mem (neg_nonpos.mpr (by positivity)) (by positivity)
  have hlift : FlightPhysics.liftForce (FlightPhysics.mkFlightConfig {}) 30 0 =
      11301.12 := by
    unfold FlightPhysics.liftForce FlightPhysics.liftMultiplier
    norm_num [FlightPhysics.mkFlightConfig, Engine.clamp]
  have hforce : FlightPhysics.flightForce (FlightPhysics.mkFlightConfig {})
      ⟨0, 0, 0, -10, true, false⟩ 0.3 30 ⟨⟨0, -30, 0⟩, 0, 0, 0, 0, false⟩ =
      ⟨0, 50973.12, 0⟩ := by
    unfold FlightPhysics.flightForce
    rw [hpitch]
    simp only [FlightPhysics.flightYaw, FlightPhysics.flightRoll,
      Engine.fwdFromEuler, Real.sin_zero, Real.cos_zero]
    rw [hlift]
    norm_num [FlightPhysics.mkFlightConfig]
  have hvel1 : FlightPhysics.flightVel1 (FlightPhysics.mkFlightConfig {})
      ⟨0, 0, 0, -10, true, false⟩ 0.3 30 ⟨⟨0, -30, 0⟩, 0, 0, 0, 0, false⟩ =
      ⟨0, -10.88508, 0⟩ := by
    unfold FlightPhysics.flightVel1
    rw [hforce]
    norm_num [FlightPhysics.mkFlightConfig]
  have hns : Engine.hypot3 (FlightPhysics.flightVel1 (FlightPhysics.mkFlightConfig {})
      ⟨0, 0, 0, -10, true, false⟩ 0.3 30 ⟨⟨0, -30, 0⟩, 0, 0, 0, 0, false⟩).x
      (FlightPhysics.flightVel1 (FlightPhysics.mkFlightConfig {})
      ⟨0, 0, 0, -10, true, false⟩ 0.3 30 ⟨⟨0, -30, 0⟩, 0, 0, 0, 0, false⟩).y
      (FlightPhysics.flightVel1 (FlightPhysics.mkFlightConfig {})
      ⟨0, 0, 0, -10, true, false⟩ 0.3 30 ⟨⟨0, -30, 0⟩, 0, 0, 0, 0, false⟩).z =
      10.88508 := by
    rw [hvel1]
    unfold Engine.hypot3
    rw [show ((0:ℝ) ^ 2 + (-10.88508:ℝ) ^ 2 + (0:ℝ) ^ 2) = 10.88508 ^ 2 by norm_num,
      Real.sqrt_sq (by norm_num)]
  have hvel2 : FlightPhysics.flightVel2 (FlightPhysics.mkFlightConfig {})
      ⟨0, 0, 0, -10, true, false⟩ 0.3 30 ⟨⟨0, -30, 0⟩, 0, 0, 0, 0, false⟩ =
      ⟨0, -10.88508, 0⟩ := by
    unfold FlightPhysics.flightVel2
    rw [hvel1]
    simp only
    rw [show Engine.hypot3 0 (-10.88508) 0 = 10.88508 from by
      unfold Engine.hypot3
      rw [show ((0:ℝ) ^ 2 + (-10.88508:ℝ) ^ 2 + (0:ℝ) ^ 2) = 10.88508 ^ 2 by
        norm_num, Real.sqrt_sq (by norm_num)]]
    rw [if_neg (by norm_num)]
  rw [if_pos ⟨⟨by norm_num [FlightPhysics.mkFlightConfig],
    by rw [hvel2]; norm_num⟩,
    by rw [hns]; norm_num [FlightPhysics.mkFlightConfig]⟩]

/-- Claim C2 amended: in the Realistic model, a grounded state with speed
at least the takeoff speed and throttle at least 0.5 lifts off, and the
update reports airborne whenever the supplied height is strictly above the
ground level (so the same tick cannot re-land), for every input and every
dt at least 0. -/
theorem C2_amended_takeoff
    (c : FlightPhysics.FlightConfig) (s : FlightPhysics.FlightState)
    (i : FlightPhysics.ControlInput) (dt entityY : ℝ)
    (hg : s.isGrounded = true)
    (hsp : Engine.speed3 s.velocity ≥ c.takeoffSpeed)
    (ht : s.throttle ≥ 0.5) (hdt : 0 ≤ dt)
    (hy : c.groundLevel < entityY) :
    (FlightPhysics.update c s i dt entityY).isGrounded = false := by
  have hsp' : Engine.hypot3 s.velocity.x s.velocity.y s.velocity.z ≥
      c.takeoffSpeed := hsp
  simp only [FlightPhysics.update]
  rw [FlightPhysics.transition_takesOff hg hsp' ht]
  simp only [Bool.false_eq_true, if_false]
  rw [FlightPhysics.updateFlight_isGrounded_of_above _ _ _ _ hy]

namespace FlightPhysics

open Engine

/-- A taxi tick with zero input, zero throttle and zero planar velocity
produces the zero velocity. -/
lemma updateGround_calm (c : FlightConfig) (dt : ℝ) (s : FlightState)
    (hth : s.throttle = 0) (hvx : s.velocity.x = 0) (hvz : s.velocity.z = 0) :
    (updateGround c zeroInput dt 0 s).velocity = ⟨0, 0, 0⟩ := by
  norm_num [updateGround, groundVel1, groundYaw, zeroInput, hth, hvx, hvz,
    Engine.hypot2, Real.sqrt_zero]

/-- One calm grounded tick: zero velocity, zero throttle, grounded, zero
input give back zero velocity, zero throttle, grounded. -/
lemma update_calm_step {c : FlightConfig} {dt y : ℝ} {s : FlightState}
    (hg : s.isGrounded = true) (hv : s.velocity = ⟨0, 0, 0⟩)
    (ht : s.throttle = 0) :
    (update c s zeroInput dt y).velocity = ⟨0, 0, 0⟩ ∧
    (update c s zeroInput dt y).throttle = 0 ∧
    (update c s zeroInput dt y).isGrounded = true := by
  have hth2 : clamp (s.throttle + zeroInput.throttleDelta * dt) 0 1 = 0 := by
    rw [ht]
    norm_num [zeroInput, Engine.clamp]
  have hgs : hypot2 s.velocity.x s.velocity.z = 0 := by
    rw [hv]
    norm_num [Engine.hypot2, Real.sqrt_zero]
  simp only [update]
  rw [transition_eq_of_grounded_lowthrottle _ _ hg (by rw [ht]; norm_num), hgs]
  refine ⟨?_, ?_, ?_⟩
  · rw [if_pos (by simpa using hg)]
    exact updateGround_calm c dt _ (by simpa using hth2)
      (by simpa using congrArg Engine.Vec3.x hv)
      (by simpa using congrArg Engine.Vec3.z hv)
  · rw [if_pos (by simpa using hg)]
    rw [updateGround_throttle]
    simpa using hth2
  · rw [if_pos (by simpa using hg)]
    rw [updateGround_isGrounded]
    simpa using hg

end FlightPhysics

/-- Claim C7: in the Realistic model, a grounded state with velocity
exactly (0,0,0) and throttle 0, under the all-zero control input and any
dt at least 0 and any supplied height, keeps velocity exactly (0,0,0),
throttle 0 and stays grounded; hence any number of repeated such updates
keeps velocity exactly (0,0,0). -/
theorem C7_full_stop_idempotence
    (c : FlightPhysics.FlightConfig) (dt entityY : ℝ)
    (s : FlightPhysics.FlightState) (hdt : 0 ≤ dt)
    (hg : s.isGrounded = true) (hv : s.velocity = ⟨0, 0, 0⟩)
    (ht : s.throttle = 0) :
    ∀ n : ℕ,
      ((fun st => FlightPhysics.update c st FlightPhysics.zeroInput dt entityY)^[n] s).velocity =
        ⟨0, 0, 0⟩ ∧
      ((fun st => FlightPhysics.update c st FlightPhysics.zeroInput dt entityY)^[n] s).throttle = 0 ∧
      ((fun st => FlightPhysics.update c st FlightPhysics.zeroInput dt entityY)^[n] s).isGrounded =
        true := by
  intro n
  induction n with
  | zero => exact ⟨hv, ht, hg⟩
  | succ k ih =>
    rw [Function.iterate_succ_apply']
    exact FlightPhysics.update_calm_step ih.2.2 ih.1 ih.2.1

/-- Witness for C7: with the default config, five calm ticks from the
constructor's initial state keep the velocity exactly (0,0,0). -/
theorem C7_witness :
    ((fun st => FlightPhysics.update (FlightPhysics.mkFlightConfig {}) st
        FlightPhysics.zeroInput 1 180)^[5] FlightPhysics.initialState).velocity =
      ⟨0, 0, 0⟩ :=
  (C7_full_stop_idempotence (FlightPhysics.mkFlightConfig {}) 1 180
    FlightPhysics.initialState (by norm_num) rfl rfl rfl 5).1

namespace Engine

lemma hypot2_nonneg (x z : ℝ) : 0 ≤ hypot2 x z := Real.sqrt_nonneg _

lemma hypot3_nonneg (x y z : ℝ) : 0 ≤ hypot3 x y z := Real.sqrt_nonneg _

/-- Scaling all components scales the norm by the absolute factor. -/
lemma hypot2_smul (x z k : ℝ) : hypot2 (x * k) (z * k) = hypot2 x z * |k| := by
  unfold hypot2
  rw [show (x * k) ^ 2 + (z * k) ^ 2 = (x ^ 2 + z ^ 2) * k ^ 2 by ring,
    Real.sqrt_mul (by positivity), Real.sqrt_sq_eq_abs]

/-- Scaling all components scales the norm by the absolute factor. -/
lemma hypot3_smul (x y z k : ℝ) :
    hypot3 (x * k) (y * k) (z * k) = hypot3 x y z * |k| := by
  unfold hypot3
  rw [show (x * k) ^ 2 + (y * k) ^ 2 + (z * k) ^ 2 =
    (x ^ 2 + y ^ 2 + z ^ 2) * k ^ 2 by ring,
    Real.sqrt_mul (by positivity), Real.sqrt_sq_eq_abs]

/-- Zeroing the middle component cannot grow the norm. -/
lemma hypot3_zero_mid_le (x y z : ℝ) : hypot3 x 0 z ≤ hypot3 x y z := by
  unfold hypot3
  exact Real.sqrt_le_sqrt (by nlinarith [sq_nonneg y])

/-- With a zero middle component the 3-norm is the planar norm. -/
lemma hypot3_zero_mid (x z : ℝ) : hypot3 x 0 z = hypot2 x z := by
  unfold hypot3 hypot2
  norm_num

end Engine

namespace FlightPhysics

open Engine

/-- The velocity left by a taxi tick: vertical component 0 and planar norm
at most the taxi ceiling of 50. -/
lemma updateGround_speed_le (c : FlightConfig) (i : ControlInput)
    (dt gs : ℝ) (s : FlightState) :
    hypot2 (updateGround c i dt gs s).velocity.x
      (updateGround c i dt gs s).velocity.z ≤ 50 := by
  simp only [updateGround]
  generalize groundVel1 c i dt gs s = v
  split_ifs with hstop hclamp
  · norm_num [Engine.hypot2, Real.sqrt_zero]
  · rw [hypot2_smul, abs_of_nonneg (by positivity), mul_comm,
      div_mul_cancel₀]
    exact ne_of_gt (lt_trans (by norm_num) hclamp)
  · exact le_of_not_lt hclamp

/-- The full velocity left by a taxi tick has speed at most 50: its
vertical component is 0 and its planar norm is clamped. -/
lemma updateGround_speed3_le (c : FlightConfig) (i : ControlInput)
    (dt gs : ℝ) (s : FlightState) :
    speed3 (updateGround c i dt gs s).velocity ≤ 50 := by
  unfold speed3
  rw [updateGround_velocity_y, hypot3_zero_mid]
  exact updateGround_speed_le c i dt gs s

/-- The speed left by a flight tick is at most the flight ceiling of 80. -/
lemma updateFlight_speed_le (c : FlightConfig) (i : ControlInput)
    (dt sp y : ℝ) (s : FlightState) :
    speed3 (updateFlight c i dt sp y s).velocity ≤ 80 := by
  have hvel2 : hypot3 (flightVel2 c i dt sp s).x (flightVel2 c i dt sp s).y
      (flightVel2 c i dt sp s).z ≤ 80 := by
    simp only [flightVel2]
    split_ifs with hcl
    · rw [hypot3_smul, abs_of_nonneg (by positivity), mul_comm,
        div_mul_cancel₀]
      exact ne_of_gt (lt_trans (by norm_num) hcl)
    · exact le_of_not_lt hcl
  simp only [updateFlight, speed3]
  split_ifs with hcol
  · exact le_trans (hypot3_zero_mid_le _ _ _) hvel2
  · exact hvel2

end FlightPhysics

/-- Claim C6 fails as stated: the Realistic adapter substitutes 0 for an
omitted height, and with the default ground level of 180 a height of 0
counts as on the ground, so ground transitions do occur with the height
omitted on every tick: an airborne state at rest lands on the very next
update. -/
theorem C6_counterexample :
    (⟨⟨0, 0, 0⟩, 0, 0, 0, 0, false⟩ : FlightPhysics.FlightState).isGrounded = false ∧
    (FlightPhysicsAdapter.realisticUpdate ⟨⟨0, 0, 0⟩, 0, 0, 0, 0, false⟩
      FlightPhysics.zeroInput 1 none).isGrounded = true := by
  refine ⟨rfl, ?_⟩
  unfold FlightPhysicsAdapter.realisticUpdate
  refine (FlightPhysics.update_lands _ _ _ _ _ rfl ?_ ?_).1
  · show (0:ℝ) ≤ (FlightPhysics.mkFlightConfig {}).groundLevel + 0.5
    norm_num [FlightPhysics.mkFlightConfig]
  · show Engine.hypot3 0 0 0 < (FlightPhysics.mkFlightConfig {}).takeoffSpeed * 0.8
    unfold Engine.hypot3
    norm_num [FlightPhysics.mkFlightConfig, Real.sqrt_zero]

/-- Claim C6 amended: in the unified facade, omitting the optional height
argument is the same as supplying height 0; with the adapter's default
config (ground level 180) that height counts as on or below ground, so
ground transitions do occur — in particular every airborne state slower
than 0.8 times the takeoff speed lands on the next update even with the
height omitted. -/
theorem C6_amended_absent_height_is_zero :
    (∀ (s : FlightPhysics.FlightState) (i : FlightPhysics.ControlInput) (dt : ℝ),
        FlightPhysicsAdapter.realisticUpdate s i dt none =
          FlightPhysicsAdapter.realisticUpdate s i dt (some 0)) ∧
    (∀ (s : FlightPhysics.FlightState) (i : FlightPhysics.ControlInput) (dt : ℝ),
        s.isGrounded = false →
        Engine.speed3 s.velocity <
          0.8 * (FlightPhysics.mkFlightConfig {}).takeoffSpeed →
        (FlightPhysicsAdapter.realisticUpdate s i dt none).isGrounded = true ∧
        (FlightPhysicsAdapter.realisticUpdate s i dt none).velocity.y = 0) := by
  refine ⟨fun s i dt => rfl, fun s i dt hg hs => ?_⟩
  unfold FlightPhysicsAdapter.realisticUpdate
  refine FlightPhysics.update_lands _ _ _ _ _ hg ?_ (by rw [mul_comm]; exact hs)
  show (0:ℝ) ≤ (FlightPhysics.mkFlightConfig {}).groundLevel + 0.5
  norm_num [FlightPhysics.mkFlightConfig]

/-- Claim C5 fails as stated for the Hybrid model: its update clamps no
speed at all, so no ceiling bounds the post-update speed of every state;
a state already moving faster than any candidate ceiling still moves that
fast after an update with dt = 0. -/
theorem C5_counterexample :
    ¬ ∃ C : ℝ, ∀ (s : HybridFlightPhysics.HybridFlightState)
        (i : FlightPhysics.ControlInput) (dt : ℝ), 0 ≤ dt →
        Engine.speed3 (HybridFlightPhysics.update
          HybridFlightPhysics.defaultHybridConfig s i dt).velocity ≤ C := by
  rintro ⟨C, hC⟩
  have h := hC ⟨⟨0, 220, 0⟩, ⟨0, 0, |C| + 1⟩, 0, 0, 0, 0.6⟩
    FlightPhysics.zeroInput 0 le_rfl
  have hvel : (HybridFlightPhysics.update HybridFlightPhysics.defaultHybridConfig
      ⟨⟨0, 220, 0⟩, ⟨0, 0, |C| + 1⟩, 0, 0, 0, 0.6⟩
      FlightPhysics.zeroInput 0).velocity = ⟨0, 0, |C| + 1⟩ := by
    simp [HybridFlightPhysics.update, Engine.add, Engine.mul]
  rw [hvel] at h
  have hsp : Engine.speed3 (⟨0, 0, |C| + 1⟩ : Engine.Vec3) = |C| + 1 := by
    unfold Engine.speed3 Engine.hypot3
    simp only
    rw [show (0:ℝ) ^ 2 + (0:ℝ) ^ 2 + (|C| + 1) ^ 2 = (|C| + 1) ^ 2 by ring,
      Real.sqrt_sq (by positivity)]
  rw [hsp] at h
  have := le_abs_self C
  linarith

/-- Claim C5 amended: only the Realistic model enforces post-update speed
ceilings: a taxi tick leaves vertical velocity 0 and planar speed at most
50, a flight tick leaves speed at most 80, and hence every Realistic
update leaves speed at most 80; the Arcade and Hybrid updates clamp to no
absolute ceiling. -/
theorem C5_amended_realistic_speed_ceilings :
    (∀ (c : FlightPhysics.FlightConfig) (i : FlightPhysics.ControlInput)
        (dt gs : ℝ) (s : FlightPhysics.FlightState),
        (FlightPhysics.updateGround c i dt gs s).velocity.y = 0 ∧
        Engine.hypot2 (FlightPhysics.updateGround c i dt gs s).velocity.x
          (FlightPhysics.updateGround c i dt gs s).velocity.z ≤ 50) ∧
    (∀ (c : FlightPhysics.FlightConfig) (i : FlightPhysics.ControlInput)
        (dt sp y : ℝ) (s : FlightPhysics.FlightState),
        Engine.speed3 (FlightPhysics.updateFlight c i dt sp y s).velocity ≤ 80) ∧
    (∀ (c : FlightPhysics.FlightConfig) (s : FlightPhysics.FlightState)
        (i : FlightPhysics.ControlInput) (dt y : ℝ),
        Engine.speed3 (FlightPhysics.update c s i dt y).velocity ≤ 80) := by
  refine ⟨fun c i dt gs s => ⟨FlightPhysics.updateGround_velocity_y c i dt gs s,
      FlightPhysics.updateGround_speed_le c i dt gs s⟩,
    fun c i dt sp y s => FlightPhysics.updateFlight_speed_le c i dt sp y s,
    fun c s i dt y => ?_⟩
  simp only [FlightPhysics.update]
  split_ifs
  · exact le_trans (FlightPhysics.updateGround_speed3_le c i dt _ _) (by norm_num)
  · exact FlightPhysics.updateFlight_speed_le c i dt _ y _

namespace FlightPhysics

open Engine

lemma updateFlight_pitch (c : FlightConfig) (i : ControlInput) (dt sp y : ℝ)
    (s : FlightState) : (updateFlight c i dt sp y s).pitch = flightPitch c i dt s := by
  simp only [updateFlight]

/-- The pitch left by a flight tick is clamped to 45 degrees either way. -/
lemma updateFlight_pitch_abs (c : FlightConfig) (i : ControlInput) (dt sp y : ℝ)
    (s : FlightState) : |(updateFlight c i dt sp y s).pitch| ≤ Real.pi / 4 := by
  rw [updateFlight_pitch]
  unfold flightPitch
  exact abs_clamp_le _ (by positivity)

/-- The pitch left by every Realistic tick is within 45 degrees: a taxi
tick forces it to 0 and a flight tick clamps it. -/
lemma update_pitch_abs (c : FlightConfig) (s : FlightState) (i : ControlInput)
    (dt y : ℝ) : |(update c s i dt y).pitch| ≤ Real.pi / 4 := by
  simp only [update]
  split_ifs
  · rw [updateGround_pitch]
    simp only [abs_zero]
    positivity
  · exact updateFlight_pitch_abs c i dt _ y _

end FlightPhysics

namespace ArcadeFlightPhysics

/-- The pitch left by every Arcade tick is clamped to 45 degrees. -/
lemma arcadeUpdate_pitch_abs (c : ArcadeFlightConfig) (s : ArcadeFlightState)
    (i : FlightPhysics.ControlInput) (dt : ℝ) :
    |(update c s i dt).pitch| ≤ Real.pi / 4 := by
  simp only [update]
  exact Engine.abs_clamp_le _ (by positivity)

end ArcadeFlightPhysics

namespace HybridFlightPhysics

/-- The pitch left by every Hybrid tick is clamped to pi/2 - 0.2 either
way. -/
lemma hybridUpdate_pitch_abs (c : HybridFlightConfig) (s : HybridFlightState)
    (i : FlightPhysics.ControlInput) (dt : ℝ) :
    |(update c s i dt).pitch| ≤ Real.pi / 2 - 0.2 := by
  simp only [update]
  rw [show (-(Real.pi / 2) + 0.2 : ℝ) = -(Real.pi / 2 - 0.2) by ring]
  exact Engine.abs_clamp_le _ (by nlinarith [Real.pi_gt_three])

end HybridFlightPhysics

/-- Claim C8: for every model, starting within the configured pitch
ceiling, sustained pitch input of magnitude 1 over any sequence of updates
never pushes the absolute pitch past the active ceiling: pi/4 for Arcade,
pi/2 - 0.2 for Hybrid, pi/4 across any Realistic sequence, with the
Realistic grounded regime forcing pitch to exactly 0 and the airborne
regime clamping it to pi/4. -/
theorem C8_pitch_ceilings :
    (∀ (c : ArcadeFlightPhysics.ArcadeFlightConfig)
        (s : ArcadeFlightPhysics.ArcadeFlightState)
        (steps : List (FlightPhysics.ControlInput × ℝ)),
        |s.pitch| ≤ Real.pi / 4 →
        (∀ q ∈ steps, |(q.1 : FlightPhysics.ControlInput).pitch| = 1) →
        |(steps.foldl (fun st q => ArcadeFlightPhysics.update c st q.1 q.2) s).pitch| ≤
          Real.pi / 4) ∧
    (∀ (c : HybridFlightPhysics.HybridFlightConfig)
        (s : HybridFlightPhysics.HybridFlightState)
        (steps : List (FlightPhysics.ControlInput × ℝ)),
        |s.pitch| ≤ Real.pi / 2 - 0.2 →
        (∀ q ∈ steps, |(q.1 : FlightPhysics.ControlInput).pitch| = 1) →
        |(steps.foldl (fun st q => HybridFlightPhysics.update c st q.1 q.2) s).pitch| ≤
          Real.pi / 2 - 0.2) ∧
    (∀ (c : FlightPhysics.FlightConfig) (s : FlightPhysics.FlightState)
        (steps : List (FlightPhysics.ControlInput × ℝ × ℝ)),
        |s.pitch| ≤ Real.pi / 4 →
        (∀ q ∈ steps, |(q.1 : FlightPhysics.ControlInput).pitch| = 1) →
        |(steps.foldl (fun st q => FlightPhysics.update c st q.1 q.2.1 q.2.2) s).pitch| ≤
          Real.pi / 4) ∧
    (∀ (c : FlightPhysics.FlightConfig) (i : FlightPhysics.ControlInput)
        (dt gs : ℝ) (s : FlightPhysics.FlightState),
        (FlightPhysics.updateGround c i dt gs s).pitch = 0) ∧
    (∀ (c : FlightPhysics.FlightConfig) (i : FlightPhysics.ControlInput)
        (dt sp y : ℝ) (s : FlightPhysics.FlightState),
        |(FlightPhysics.updateFlight c i dt sp y s).pitch| ≤ Real.pi / 4) := by
  refine ⟨fun c s steps hs hin => ?_, fun c s steps hs hin => ?_,
    fun c s steps hs hin => ?_,
    fun c i dt gs s => FlightPhysics.updateGround_pitch c i dt gs s,
    fun c i dt sp y s => FlightPhysics.updateFlight_pitch_abs c i dt sp y s⟩
  · induction steps generalizing s with
    | nil => simpa using hs
    | cons q l ih =>
      rw [List.foldl_cons]
      exact ih _ (ArcadeFlightPhysics.arcadeUpdate_pitch_abs c s q.1 q.2)
        fun r hr => hin r (List.mem_cons_of_mem _ hr)
  · induction steps generalizing s with
    | nil => simpa using hs
    | cons q l ih =>
      rw [List.foldl_cons]
      exact ih _ (HybridFlightPhysics.hybridUpdate_pitch_abs c s q.1 q.2)
        fun r hr => hin r (List.mem_cons_of_mem _ hr)
  · induction steps generalizing s with
    | nil => simpa using hs
    | cons q l ih =>
      rw [List.foldl_cons]
      exact ih _ (FlightPhysics.update_pitch_abs c s q.1 q.2.1 q.2.2)
        fun r hr => hin r (List.mem_cons_of_mem _ hr)

namespace Engine

/-- The damped value misses the target by the old miss scaled by the decay
factor. -/
lemma damp_sub (cur target lambda dt : ℝ) :
    damp cur target lambda dt - target =
      (cur - target) * Real.exp (-lambda * dt) := by
  unfold damp
  ring

/-- The norm of a componentwise-scaled triple, for a nonnegative factor. -/
lemma sqrt_scaled (a b c e : ℝ) (he : 0 ≤ e) :
    Real.sqrt ((a * e) ^ 2 + (b * e) ^ 2 + (c * e) ^ 2) =
      e * Real.sqrt (a ^ 2 + b ^ 2 + c ^ 2) := by
  rw [show (a * e) ^ 2 + (b * e) ^ 2 + (c * e) ^ 2 =
    e ^ 2 * (a ^ 2 + b ^ 2 + c ^ 2) by ring,
    Real.sqrt_mul (sq_nonneg e), Real.sqrt_sq he]

end Engine

namespace CameraRig

open Engine

/-- One camera tick contracts the distance to the ideal position by
exactly the exponential decay factor. -/
lemma dist3_update_position (rig : Rig) (planePos planeVel : Vec3) (dt : ℝ) :
    dist3 (update rig planePos planeVel dt).position (idealPos planePos planeVel) =
      Real.exp (-6 * dt) *
        dist3 rig.position (idealPos planePos planeVel) := by
  unfold update dist3 Engine.hypot3
  simp only
  rw [damp_sub, damp_sub, damp_sub]
  exact sqrt_scaled _ _ _ _ (Real.exp_nonneg _)

/-- One camera tick contracts the distance to the ideal look-at target by
exactly the exponential decay factor. -/
lemma dist3_update_target (rig : Rig) (planePos planeVel : Vec3) (dt : ℝ) :
    dist3 (update rig planePos planeVel dt).target (idealTarget planePos planeVel) =
      Real.exp (-6 * dt) *
        dist3 rig.target (idealTarget planePos planeVel) := by
  unfold update dist3 Engine.hypot3
  simp only
  rw [damp_sub, damp_sub, damp_sub]
  exact sqrt_scaled _ _ _ _ (Real.exp_nonneg _)

lemma dist3_nonneg (a b : Vec3) : 0 ≤ dist3 a b := Real.sqrt_nonneg _

end CameraRig

/-- Claim C9: for the view rig, with a constant ideal pose (fixed aircraft
position and velocity, hence fixed ideal camera position and look-at
target) and a fixed dt above 0, each update brings the smoothed camera
position no farther from the ideal position, strictly closer whenever it
is not already there, and likewise for the smoothed look-at target: the
distances decrease monotonically tick over tick. -/
theorem C9_camera_rig_convergence (planePos planeVel : Engine.Vec3)
    (dt : ℝ) (rig : CameraRig.Rig) (hdt : 0 < dt) :
    (CameraRig.dist3 (CameraRig.update rig planePos planeVel dt).position
        (CameraRig.idealPos planePos planeVel) ≤
      CameraRig.dist3 rig.position (CameraRig.idealPos planePos planeVel) ∧
      (0 < CameraRig.dist3 rig.position (CameraRig.idealPos planePos planeVel) →
        CameraRig.dist3 (CameraRig.update rig planePos planeVel dt).position
            (CameraRig.idealPos planePos planeVel) <
          CameraRig.dist3 rig.position (CameraRig.idealPos planePos planeVel))) ∧
    (CameraRig.dist3 (CameraRig.update rig planePos planeVel dt).target
        (CameraRig.idealTarget planePos planeVel) ≤
      CameraRig.dist3 rig.target (CameraRig.idealTarget planePos planeVel) ∧
      (0 < CameraRig.dist3 rig.target (CameraRig.idealTarget planePos planeVel) →
        CameraRig.dist3 (CameraRig.update rig planePos planeVel dt).target
            (CameraRig.idealTarget planePos planeVel) <
          CameraRig.dist3 rig.target (CameraRig.idealTarget planePos planeVel))) := by
  have he1 : Real.exp (-6 * dt) < 1 := by
    rw [Real.exp_lt_one_iff]
    nlinarith
  have he0 : 0 ≤ Real.exp (-6 * dt) := Real.exp_nonneg _
  constructor
  · rw [CameraRig.dist3_update_position]
    refine ⟨mul_le_of_le_one_left (CameraRig.dist3_nonneg _ _) (le_of_lt he1),
      fun hpos => ?_⟩
    calc Real.exp (-6 * dt) * CameraRig.dist3 rig.position
          (CameraRig.idealPos planePos planeVel)
        < 1 * CameraRig.dist3 rig.position (CameraRig.idealPos planePos planeVel) :=
          mul_lt_mul_of_pos_right he1 hpos
      _ = CameraRig.dist3 rig.position (CameraRig.idealPos planePos planeVel) :=
          one_mul _
  · rw [CameraRig.dist3_update_target]
    refine ⟨mul_le_of_le_one_left (CameraRig.dist3_nonneg _ _) (le_of_lt he1),
      fun hpos => ?_⟩
    calc Real.exp (-6 * dt) * CameraRig.dist3 rig.target
          (CameraRig.idealTarget planePos planeVel)
        < 1 * CameraRig.dist3 rig.target (CameraRig.idealTarget planePos planeVel) :=
          mul_lt_mul_of_pos_right he1 hpos
      _ = CameraRig.dist3 rig.target (CameraRig.idealTarget planePos planeVel) :=
          one_mul _

/-- Witness for C9: at a concrete pose (aircraft at the origin moving
along +Z, rig at the origin) with dt 1, one update brings the camera
position no farther from the ideal position. -/
theorem C9_witness :
    CameraRig.dist3 (CameraRig.update ⟨⟨0, 0, 0⟩, ⟨0, 0, 0⟩⟩ ⟨0, 0, 0⟩
        ⟨0, 0, 1⟩ 1).position (CameraRig.idealPos ⟨0, 0, 0⟩ ⟨0, 0, 1⟩) ≤
      CameraRig.dist3 (⟨⟨0, 0, 0⟩, ⟨0, 0, 0⟩⟩ : CameraRig.Rig).position
        (CameraRig.idealPos ⟨0, 0, 0⟩ ⟨0, 0, 1⟩) :=
  ((C9_camera_rig_convergence ⟨0, 0, 0⟩ ⟨0, 0, 1⟩ 1 ⟨⟨0, 0, 0⟩, ⟨0, 0, 0⟩⟩
    (by norm_num)).1).1

/-- The lift multiplier at level pitch is exactly 1. -/
lemma liftMultiplier_zero : FlightPhysics.liftMultiplier 0 = 1 := by
  unfold FlightPhysics.liftMultiplier
  norm_num [Engine.clamp]

/-- Claim C1: in the Realistic model, every constructed config (the
supplied lift coefficient included) satisfies
liftCoef = mass * gravity / takeoffSpeed^2 exactly; consequently the lift
force computed in an airborne update at speed equal to the takeoff speed
and pitch 0 equals mass * gravity exactly (the floating tolerance of the
spec collapses to equality over the reals), for a positive takeoff speed
and a nonnegative weight. -/
theorem C1_derived_lift_coefficient (p : FlightPhysics.PartialFlightConfig) :
    (FlightPhysics.mkFlightConfig p).liftCoef =
      (FlightPhysics.mkFlightConfig p).mass * (FlightPhysics.mkFlightConfig p).gravity /
        ((FlightPhysics.mkFlightConfig p).takeoffSpeed *
          (FlightPhysics.mkFlightConfig p).takeoffSpeed) ∧
    ((FlightPhysics.mkFlightConfig p).takeoffSpeed ≠ 0 →
      0 ≤ (FlightPhysics.mkFlightConfig p).mass * (FlightPhysics.mkFlightConfig p).gravity →
      FlightPhysics.liftForce (FlightPhysics.mkFlightConfig p)
          (FlightPhysics.mkFlightConfig p).takeoffSpeed 0 =
        (FlightPhysics.mkFlightConfig p).mass * (FlightPhysics.mkFlightConfig p).gravity) := by
  constructor
  · rfl
  · intro hts hmg
    have hcoef : (FlightPhysics.mkFlightConfig p).liftCoef *
        (FlightPhysics.mkFlightConfig p).takeoffSpeed *
        (FlightPhysics.mkFlightConfig p).takeoffSpeed =
        (FlightPhysics.mkFlightConfig p).mass *
          (FlightPhysics.mkFlightConfig p).gravity := by
      rw [show (FlightPhysics.mkFlightConfig p).liftCoef =
        (FlightPhysics.mkFlightConfig p).mass * (FlightPhysics.mkFlightConfig p).gravity /
          ((FlightPhysics.mkFlightConfig p).takeoffSpeed *
            (FlightPhysics.mkFlightConfig p).takeoffSpeed) from rfl]
      field_simp
      ring
    unfold FlightPhysics.liftForce
    rw [liftMultiplier_zero, mul_one, hcoef,
      min_eq_left (by nlinarith)]

/-- Witness for the amended C2: with the default config, a grounded state
moving forward at 30 with full throttle, zero input, dt 1 and height 181
reports airborne. -/
theorem C2_amended_witness :
    (FlightPhysics.update (FlightPhysics.mkFlightConfig {})
      ⟨⟨0, 0, 30⟩, 0, 0, 0, 1, true⟩
      FlightPhysics.zeroInput 1 181).isGrounded = false :=
  C2_amended_takeoff _ _ _ _ _ rfl
    (by
      unfold Engine.speed3 Engine.hypot3
      simp only
      rw [show ((0:ℝ) ^ 2 + (0:ℝ) ^ 2 + (30:ℝ) ^ 2) = 30 ^ 2 by norm_num,
        Real.sqrt_sq (by norm_num)]
      norm_num [FlightPhysics.mkFlightConfig])
    (by norm_num) (by norm_num)
    (by norm_num [FlightPhysics.mkFlightConfig])

/-- Claim C4: for every model (Arcade, Hybrid, Realistic), every state,
every input of any throttleDelta magnitude, and every dt at least 0, the
throttle value after update lies in the closed interval from 0 to 1. -/
theorem C4_throttle_in_unit_interval :
    (∀ (c : ArcadeFlightPhysics.ArcadeFlightConfig)
        (s : ArcadeFlightPhysics.ArcadeFlightState)
        (i : FlightPhysics.ControlInput) (dt : ℝ), 0 ≤ dt →
        0 ≤ (ArcadeFlightPhysics.update c s i dt).throttle ∧
        (ArcadeFlightPhysics.update c s i dt).throttle ≤ 1) ∧
    (∀ (c : HybridFlightPhysics.HybridFlightConfig)
        (s : HybridFlightPhysics.HybridFlightState)
        (i : FlightPhysics.ControlInput) (dt : ℝ), 0 ≤ dt →
        0 ≤ (HybridFlightPhysics.update c s i dt).throttle ∧
        (HybridFlightPhysics.update c s i dt).throttle ≤ 1) ∧
    (∀ (c : FlightPhysics.FlightConfig) (s : FlightPhysics.FlightState)
        (i : FlightPhysics.ControlInput) (dt entityY : ℝ), 0 ≤ dt →
        0 ≤ (FlightPhysics.update c s i dt entityY).throttle ∧
        (FlightPhysics.update c s i dt entityY).throttle ≤ 1) := by
  refine ⟨fun c s i dt _ => ?_, fun c s i dt _ => ?_, fun c s i dt y _ => ?_⟩
  · constructor
    · simpa only [ArcadeFlightPhysics.update] using
        Engine.clamp_nonneg (s.throttle + i.throttleDelta * dt)
    · simpa only [ArcadeFlightPhysics.update] using
        Engine.clamp_le_one (s.throttle + i.throttleDelta * dt)
  · constructor
    · simpa only [HybridFlightPhysics.update] using
        Engine.clamp_nonneg (s.throttle + i.throttleDelta * dt)
    · simpa only [HybridFlightPhysics.update] using
        Engine.clamp_le_one (s.throttle + i.throttleDelta * dt)
  · rw [FlightPhysics.update_throttle]
    exact ⟨Engine.clamp_nonneg _, Engine.clamp_le_one _⟩

/-- Witness for C4 at a concrete input: in all three models a throttle
push of 100 per second for one second leaves the throttle in the unit
interval. -/
theorem C4_witness :
    0 ≤ (ArcadeFlightPhysics.update ArcadeFlightPhysics.defaultArcadeConfig
        ⟨⟨0, 200, 0⟩, ⟨0, 0, 0⟩, 0, 0, 0, 0.6⟩
        ⟨0, 0, 0, 100, false, false⟩ 1).throttle :=
  ((C4_throttle_in_unit_interval.1 ArcadeFlightPhysics.defaultArcadeConfig
    ⟨⟨0, 200, 0⟩, ⟨0, 0, 0⟩, 0, 0, 0, 0.6⟩
    ⟨0, 0, 0, 100, false, false⟩ 1 (by norm_num)).1)

/-- Claim C10: in the Realistic model the takeoff test is evaluated before
the throttle integration of the tick: a grounded state with throttle below
0.5 stays grounded through the update, for every input (of any
throttleDelta) and every dt at least 0, even when the throttle integration
of that same update raises the throttle to 0.5 or more. -/
theorem C10_takeoff_checked_before_throttle_integration
    (c : FlightPhysics.FlightConfig) (s : FlightPhysics.FlightState)
    (i : FlightPhysics.ControlInput) (dt entityY : ℝ)
    (hg : s.isGrounded = true) (ht : s.throttle < 0.5) (hdt : 0 ≤ dt) :
    (FlightPhysics.update c s i dt entityY).isGrounded = true := by
  simp [FlightPhysics.update,
    FlightPhysics.transition_eq_of_grounded_lowthrottle _ _ hg ht,
    FlightPhysics.updateGround_isGrounded, hg]

/-- Witness for C10: with the default config, a grounded state at rest
with throttle 0.3 and a throttleDelta of 1 over a full second (which
drives throttle to 1) still reports grounded. -/
theorem C10_witness :
    (FlightPhysics.update (FlightPhysics.mkFlightConfig {})
      { FlightPhysics.initialState with throttle := 0.3 }
      ⟨0, 0, 0, 1, false, false⟩ 1 180).isGrounded = true :=
  C10_takeoff_checked_before_throttle_integration _ _ _ _ _ rfl
    (by norm_num [FlightPhysics.initialState]) (by norm_num)

/-- Claim C3: in the Realistic model, an airborne state supplied a height
at most groundLevel + 0.5 whose pre-update speed is below 0.8 times the
takeoff speed lands on that update: it reports grounded and its vertical
velocity component is forced to exactly 0, for every input and dt. -/
theorem C3_landing_transition
    (c : FlightPhysics.FlightConfig) (s : FlightPhysics.FlightState)
    (i : FlightPhysics.ControlInput) (dt entityY : ℝ)
    (hg : s.isGrounded = false) (hy : entityY ≤ c.groundLevel + 0.5)
    (hs : Engine.speed3 s.velocity < 0.8 * c.takeoffSpeed) :
    (FlightPhysics.update c s i dt entityY).isGrounded = true ∧
    (FlightPhysics.update c s i dt entityY).velocity.y = 0 := by
  exact FlightPhysics.update_lands c s i dt entityY hg hy (by rw [mul_comm]; exact hs)

/-- Witness for C3: with the default config (groundLevel 180, takeoff
speed 25), an airborne state at rest supplied height 180 lands: grounded
with vertical velocity exactly 0. -/
theorem C3_witness :
    (FlightPhysics.update (FlightPhysics.mkFlightConfig {})
      { FlightPhysics.initialState with isGrounded := false }
      FlightPhysics.zeroInput 1 180).isGrounded = true ∧
    (FlightPhysics.update (FlightPhysics.mkFlightConfig {})
      { FlightPhysics.initialState with isGrounded := false }
      FlightPhysics.zeroInput 1 180).velocity.y = 0 :=
  C3_landing_transition _ _ _ _ _ rfl
    (by norm_num [FlightPhysics.mkFlightConfig])
    (by norm_num [Engine.speed3, Engine.hypot3, Engine.v3,
      FlightPhysics.initialState, FlightPhysics.mkFlightConfig, Real.sqrt_zero])

end

